import Mathlib

/-!
Verification development for the katrfireport repository.

The repository consists of two Python source files:
  * katrfireport/mkat_rfi_report.py  -- statistics collection, figure/layout code,
    metadata and index.html writers (classes PlotFreqTimeStats, PlotFreqBaseline,
    RfiReportLayout);
  * scripts/rfi_report_script.py     -- the command-line orchestration (main).

This file is a shallow embedding of that code.  The external dataset accessor
(katdal) is modelled as an oracle: a base record exposing, for every selection,
the flag cube, the correlation products and the scan targets of the resulting
view; a selection call replaces the whole current view (katdal semantics, as
stated in the specification: "each selection call replaces the prior view").
Flag values are rationals (the flag cube holds 0/1 indicators; numpy means are
exact rationals on such data).
-/

/-- A 2-D statistics image (list of rows of rationals). -/
abbrev RfiImage := List (List ℚ)

/-- A 3-D flag cube, indexed time x frequency x baseline. -/
abbrev FlagCube := List (List (List ℚ))

/-- Arguments of a `dataset.select(...)` call.  The code only ever passes
`scans`, `corrprods`, `flags` and `pol`; an omitted keyword is `none`
(katdal resets unspecified criteria, so the record is the whole view). -/
structure SelectArgs where
  scans : Option String := none
  corrprods : Option String := none
  flags : Option String := none
  pol : Option String := none
deriving DecidableEq, Repr

/-- Oracle model of the external katdal dataset: for each selection it yields
the flag cube of the resulting view (`view`), the correlation products of the
view (`corr_products`, pairs of antenna-polarization names such as
("m000h", "m001h")), and the per-scan target names of `dataset.scans()`
(`scan_targets`). -/
structure BaseData where
  view : SelectArgs → FlagCube
  corr_products : SelectArgs → List (String × String)
  scan_targets : SelectArgs → List String

/-- A katdal dataset handle: the underlying immutable data plus the current
selection, which `select` mutates in place in the Python code. -/
structure DataSet where
  base : BaseData
  current : SelectArgs

/-- `dataset.select(...)`: replaces the current view. -/
def DataSet.select (d : DataSet) (s : SelectArgs) : DataSet :=
  { d with current := s }

/-- `dataset.flags[:, :, :]`: the flag cube of the current view. -/
def DataSet.flags (d : DataSet) : FlagCube :=
  d.base.view d.current

/-- `dataset.corr_products` under the current view. -/
def DataSet.corrProducts (d : DataSet) : List (String × String) :=
  d.base.corr_products d.current

/-- Mean of a list of rationals (`np.mean`); the empty mean is 0 here
(numpy would produce NaN; the code never guards this case and no claim
exercises it). -/
def lmean (l : List ℚ) : ℚ := l.sum / (l.length : ℚ)

/-- `np.mean(cube, axis=2)`: average over the baseline axis, leaving a
(time x frequency) image. -/
def meanAxis2 (c : FlagCube) : RfiImage :=
  c.map (fun plane => plane.map lmean)

/-- `np.mean(cube, axis=0)`: average over the time axis, leaving a
(frequency x baseline) image.  Numpy arrays are rectangular; the shape is
taken from the first plane. -/
def meanAxis0 (c : FlagCube) : RfiImage :=
  let t := c.length
  let nf := (c.headD []).length
  let nb := ((c.headD []).headD []).length
  (List.range nf).map (fun f =>
    (List.range nb).map (fun b =>
      (c.map (fun plane => (plane.getD f []).getD b 0)).sum / (t : ℚ)))

/-- `arr[:, idx]`: reorder the columns of a 2-D array by an index list. -/
def reorderCols (img : RfiImage) (idx : List Nat) : RfiImage :=
  img.map (fun row => idx.map (fun j => row.getD j 0))

/-- The flag categories iterated over by `make_plots`
(mkat_rfi_report.py line 85 and line 214). -/
def flag_names : List String :=
  ["data_lost", "cam", "ingest_rfi", "cal_rfi", "combined_flags"]

/-- The polarizations iterated over by `collect_plots` (line 102). -/
def pol_names : List String := ["HH", "VV"]

/-- Statistics part of `PlotFreqTimeStats.make_plots` (lines 82-97): for each
flag category, apply the selection (with the flag filter except for
"combined_flags") and average the flag cube over the baseline axis.  The
figure construction of line 95 always raises (see `freq_time_fig_call`) and is
modelled separately; this definition captures the per-flag statistics images,
threading the mutated dataset handle. -/
def ft_make_plots (pol : String) (d : DataSet) :
    List (String × RfiImage) × DataSet :=
  flag_names.foldl
    (fun acc f =>
      let d' := if f ≠ "combined_flags"
        then acc.2.select ⟨some "track", some "cross", some f, some pol⟩
        else acc.2.select ⟨some "track", some "cross", none, some pol⟩
      (acc.1 ++ [(f, meanAxis2 d'.flags)], d'))
    ([], d)

/-- Statistics part of `PlotFreqTimeStats.collect_plots` (lines 99-107):
HH then VV. -/
def ft_collect_plots (d : DataSet) :
    List (String × List (String × RfiImage)) × DataSet :=
  pol_names.foldl
    (fun acc p =>
      let r := ft_make_plots p acc.2
      (acc.1 ++ [(p, r.1)], r.2))
    ([], d)

/-!  Frequency-baseline report (class PlotFreqBaseline). -/

/-- Python errors raised by the embedded code. -/
inductive PyError where
  | indentationError (msg : String)
  | typeError (msg : String)
  | keyError (key : String)
  | injected (msg : String)
deriving DecidableEq, Repr

/-- `PlotFreqBaseline.get_corrprods` (lines 192-210): for each correlation
product, concatenate the two antenna names with their last character (the
polarization suffix) stripped: `bl[i][0][0:-1] + bl[i][1][0:-1]`. -/
def get_corrprods (d : DataSet) : List String :=
  d.corrProducts.map (fun p => p.1.dropRight 1 ++ p.2.dropRight 1)

/-- The baseline-length table read by `pd.read_csv` (line 181): columns are
antenna-pair labels, the single data row holds the lengths, so
`bl_lens[corrprod].values[0]` is a column lookup that raises `KeyError` when
the label is absent. -/
abbrev BlTable := List (String × ℚ)

/-- `np.argsort` (line 188), modelled as a sort of the index list by the
looked-up values.  Any correct argsort (numpy uses introsort) yields a
permutation sorting the values; we use the stable `List.mergeSort`. -/
def argsort (l : List ℚ) : List Nat :=
  (List.range l.length).mergeSort (fun i j => decide (l.getD i 0 ≤ l.getD j 0))

/-- `PlotFreqBaseline.get_bl_idx` (lines 167-190): look every correlation
product up in the baseline-length table (KeyError propagates, no fallback),
argsort the lengths and return the sorting indices together with the sorted
lengths. -/
def get_bl_idx (tbl : BlTable) (d : DataSet) :
    Except PyError (List Nat × List ℚ) := do
  let corrprods := get_corrprods d
  let corrprod_bl ← corrprods.mapM (fun c =>
    match tbl.lookup c with
    | some v => Except.ok v
    | none => Except.error (PyError.keyError c))
  let bl_idx := argsort corrprod_bl
  let ordered_bl := bl_idx.map (fun i => corrprod_bl.getD i 0)
  return (bl_idx, ordered_bl)

/-- Statistics part of `PlotFreqBaseline.make_plots` (lines 212-229): per
flag category, apply the selection, average the flag cube over the time axis
and reorder the baseline columns by the argsort of the baseline lengths.
(The figure then wraps the transpose of this image; figure construction is
modelled separately, see `fb_format_fig_result`.) -/
def fb_make_plots (tbl : BlTable) (pol : String) (d : DataSet) :
    Except PyError (List (String × RfiImage) × DataSet) :=
  flag_names.foldlM
    (fun acc f => do
      let d' := if f ≠ "combined_flags"
        then acc.2.select ⟨some "track", some "cross", some f, some pol⟩
        else acc.2.select ⟨some "track", some "cross", none, some pol⟩
      let two_d := meanAxis0 d'.flags
      let pr ← get_bl_idx tbl d'
      return (acc.1 ++ [(f, reorderCols two_d pr.1)], d'))
    ([], d)

/-- `collect_plots` as inherited by `PlotFreqBaseline`: HH then VV via the
overriding `make_plots`. -/
def fb_collect_plots (tbl : BlTable) (d : DataSet) :
    Except PyError (List (String × List (String × RfiImage)) × DataSet) :=
  pol_names.foldlM
    (fun acc p => do
      let r ← fb_make_plots tbl p acc.2
      return (acc.1 ++ [(p, r.1)], r.2))
    ([], d)

/-!  Axis ticks, metadata and the index page (PlotFreqTimeStats). -/

/-- Core of `PlotFreqTimeStats.make_ticks` (lines 70-80) over the per-scan
target names (`[scan[2].name for scan in dataset.scans()]`) and
`nscans = dataset.shape[0]` (the number of time samples of the current view).
`step = nscans//len(targets)+1`; `indices = np.arange(0, nscans)[::step]+10`,
i.e. the values 0, step, 2*step, ... below nscans (one per slice position,
ceil(nscans/step) of them), each plus 10; the loop fills a dict
`y_ticks_dic[str(indices[i])] = targets[i]` for i below len(targets).
Python raises ZeroDivisionError when targets is empty and IndexError when
indices is shorter than targets; both are modelled as `none`.  A dict key
`str(indices[i])` is the decimal string of the tick position; since distinct
numbers have distinct strings we keep the numeric key. -/
def make_ticks_core (targets : List String) (nscans : Nat) :
    Option (List (Nat × String)) :=
  if targets.length = 0 then none
  else
    let step := nscans / targets.length + 1
    let indices := (List.range ((nscans + step - 1) / step)).map
      (fun i => i * step + 10)
    (List.range targets.length).mapM (fun i => do
      let idx ← indices[i]?
      let t ← targets[i]?
      pure (idx, t))

/-- `make_ticks(dataset)`: targets and shape under the current selection. -/
def make_ticks (d : DataSet) : Option (List (Nat × String)) :=
  make_ticks_core (d.base.scan_targets d.current) (d.base.view d.current).length

example :
    make_ticks_core ["t1", "t2", "t3"] 10
      = some [(10, "t1"), (14, "t2"), (18, "t3")] := by decide

/-- Minimal JSON values, enough for the metadata record. -/
inductive Json where
  | str (s : String)
  | obj (fields : List (String × Json))

/-- The observation parameters read from `dataset.obs_params` (lines 116-119). -/
structure ObsParams where
  description : String
  sb_id_code : String
  proposal_id : String
  capture_block_id : String
deriving DecidableEq, Repr

/-- `PlotFreqTimeStats.write_metadata` (lines 109-122): the dictionary passed
to `json.dump`. -/
def write_metadata (p : ObsParams) : Json :=
  Json.obj
    [("ProductType", Json.obj
        [("ProductTypeName", Json.str "MeerKATReductionProduct"),
         ("ReductionName", Json.str "RFIReport")]),
     ("Description", Json.str p.description),
     ("ScheduleBlockIdCode", Json.str p.sb_id_code),
     ("ProposalId", Json.str p.proposal_id),
     ("CaptureBlockId", Json.str p.capture_block_id)]

/-- The fixed HTML header of `create_main_html` (lines 126-136). -/
def main_html_header : String :=
  "\n        <!DOCTYPE html>\n        <html lang=\"en\">\n        <head>\n            <meta charset=\"UTF-8\">\n            <meta name=\"viewport\" content=\"width=device-width, initial-scale=1.0\">\n            <title>MeerKAT RFI Report</title>\n        </head>\n        <body>\n            <h1>MeerKAT RFI Report</h1>\n        "

/-- The fixed HTML footer of `create_main_html` (lines 146-149). -/
def main_html_footer : String :=
  "\n        </body>\n        </html>\n        "

/-- The section headings of `create_main_html` (line 137). -/
def plot_types : List String :=
  ["Frequency-Time RFI Statistics", "Frequency-Baseline RFI Statistics"]

/-- `os.path.join` for the two-component case used by the code. -/
def joinPath (dir f : String) : String := dir ++ "/" ++ f

/-- `PlotFreqTimeStats.create_main_html` (lines 124-153): the string written
to the main HTML file.  `readFile` is the file-system oracle mapping a path to
its contents; for each listed report file (enumerate gives the pair
(index, name)) the section heading for its index is emitted, then the file
contents.  (For an index beyond the two headings Python would raise
IndexError; `main` always passes exactly two files.) -/
def create_main_html (readFile : String → String) (other_html_files : List String)
    (output_dir : String) : String :=
  main_html_header ++
    String.join ((other_html_files.enum).map (fun p =>
      "<h2>" ++ plot_types.getD p.1 "" ++ "</h2>" ++
        readFile (joinPath output_dir p.2))) ++
  main_html_footer

/-!  Call-level faults of the source (claim C2) and module import.

Python raises TypeError when a call supplies fewer positional arguments than
the callee requires, KeyError when a dict subscript misses, and
IndentationError at import time when the indentation of a line matches no
enclosing block level. -/

/-- A Python call: `required` positional parameters, `given` arguments;
the body runs only when they agree. -/
def pycall (required given : Nat) (e : PyError) (body : Except PyError Unit) :
    Except PyError Unit :=
  if given = required then body else Except.error e

/-- Number of positional parameters (beyond `self`) of
`PlotFreqTimeStats.format_fig` (line 46): `title`, `pol`, `dataset`. -/
def format_fig_required : Nat := 3

/-- Number of arguments `PlotFreqTimeStats.freq_time_fig` passes to
`self.format_fig(title, pol)` (line 57). -/
def freq_time_fig_given : Nat := 2

/-- The `fig = self.format_fig(title, pol)` call of `freq_time_fig`
(line 57): two arguments against three required parameters. -/
def freq_time_fig_call : Except PyError Unit :=
  pycall format_fig_required freq_time_fig_given
    (PyError.typeError
      "format_fig() missing 1 required positional argument: dataset")
    (Except.ok ())

/-- Indentation (leading spaces) of the `def format_fig` line of
`PlotFreqBaseline` (mkat_rfi_report.py line 245). -/
def fb_format_fig_indent : Nat := 6

/-- The block indentation levels enclosing line 245 (module level 0 and the
class body level 4); a dedent must match one of them. -/
def fb_enclosing_indents : List Nat := [0, 4]

/-- Importing `katrfireport.mkat_rfi_report`: line 245 dedents to column 6,
which matches no enclosing block level, so the module fails to parse and
the importing of it raises IndentationError. -/
def module_import : Except PyError Unit :=
  if fb_format_fig_indent ∈ fb_enclosing_indents then Except.ok ()
  else Except.error (PyError.indentationError
    "unindent does not match any outer indentation level (line 245)")

/-- Body of `PlotFreqBaseline.format_fig` (lines 245-251): builds a figure but
has no return statement, so a call (were the module parseable) returns None. -/
def fb_format_fig_result : Option Unit := none

/-- `RfiReportLayout.__init__` (lines 256-258) reads `kwargs["cbid"]`; absent
key raises KeyError.  Returns the stored cbid. -/
def rfiReportLayout_init (kwargs : List (String × String)) :
    Except PyError String :=
  match kwargs.lookup "cbid" with
  | some v => Except.ok v
  | none => Except.error (PyError.keyError "cbid")

/-- `main` calls `layout.create_layout(filename)` (script line 58) with one
argument, but `create_layout` (line 259) takes none beyond `self`. -/
def create_layout_call : Except PyError Unit :=
  pycall 0 1
    (PyError.typeError
      "create_layout() takes 1 positional argument but 2 were given")
    (Except.ok ())

/-!  Orchestration (rfi_report_script.py, main, lines 36-71). -/

/-- The relevant file-system state: contents (file names) of the temporary
output directory `<output_dir>.writing` and of the final-named output
directory (none = the directory does not exist), plus the files in the
working directory where the script writes before moving. -/
structure FS where
  tmp : Option (List String)
  final : Option (List String)
  cwd : List String
deriving DecidableEq, Repr

/-- The file system before `main` touches it. -/
def FS.start : FS := ⟨none, none, []⟩

/-- `os.mkdir(tmp_dir)` (line 42). -/
def FS.mkdirTmp (fs : FS) : FS := { fs with tmp := some [] }

/-- `shutil.rmtree(tmp_dir, ignore_errors=True)` (line 64): removes the
temporary directory; a missing directory is ignored. -/
def FS.rmtreeTmp (fs : FS) : FS := { fs with tmp := none }

/-- `os.rename(tmp_dir, output_dir)` (line 60): the temporary directory
becomes the final-named directory. -/
def FS.renameTmpToFinal (fs : FS) : FS :=
  { fs with tmp := none, final := fs.tmp }

/-- A file written into the working directory. -/
def FS.writeCwd (f : String) (fs : FS) : FS := { fs with cwd := fs.cwd ++ [f] }

/-- `shutil.move(f, output_dir)` (lines 61, 68, 71). -/
def FS.moveToFinal (f : String) (fs : FS) : FS :=
  { fs with cwd := fs.cwd.erase f,
            final := fs.final.map (fun l => l ++ [f]) }

/-- Outcome of a run: resulting file system and the uncaught exception,
if any. -/
structure RunResult where
  fs : FS
  err : Option PyError
deriving DecidableEq, Repr

/-- Report file name, script line 48:
`cbid + "_" + val + "_" + prefix + "_report.html"`. -/
def reportFileName (cbid val pre : String) : String :=
  cbid ++ "_" ++ val ++ "_" ++ pre ++ "_" ++ "report.html"

/-- `cbid = dataset.name.split("_")[0]` (script line 39). -/
def cbidOf (name : String) : String := (name.splitOn "_").headD ""

/-- The output directory of script lines 37-38: the prefix and the random
uuid joined by an underscore, under the parent output directory; the random
uuid is a parameter here. -/
def main_output_dir (parent pre uid : String) : String :=
  joinPath parent (pre ++ "_" ++ uid)

/-- `tmp_dir = output_dir + ".writing"` (script line 41). -/
def main_tmp_dir (parent pre uid : String) : String :=
  main_output_dir parent pre uid ++ ".writing"

/-- One iteration of the loop of `main` (script lines 45-65) with the report
generation (lines 47-58: building the stats object, collecting the plots,
laying them out and writing the report file) abstracted to an injectable
outcome `gen`: on success the report file exists in the working directory,
then on the first iteration the temporary directory is renamed to its final
name (line 60), and the file is moved into the output directory (line 61);
on an exception the handler removes the temporary directory (best effort)
and re-raises (lines 62-65). -/
def main_iter (i : Nat) (filename : String) (gen : Except PyError Unit)
    (fs : FS) : Except (PyError × FS) FS :=
  match gen with
  | Except.error e => Except.error (e, fs.rmtreeTmp)
  | Except.ok _ =>
    let fs := fs.writeCwd filename
    let fs := if i = 0 then fs.renameTmpToFinal else fs
    Except.ok (fs.moveToFinal filename)

/-- The orchestration of `main` (script lines 41-71) over the two report
types `freq_time` and `freq_baseline`, with each report generation abstracted
to an outcome (`gen 0`, `gen 1`): mkdir of the temporary directory, the two
loop iterations, then the metadata file and the index page, each written and
moved into the output directory. -/
def orchCore (cbid pre : String) (gen0 gen1 : Except PyError Unit) : RunResult :=
  let fs := FS.start.mkdirTmp
  match main_iter 0 (reportFileName cbid "freq_time" pre) gen0 fs with
  | Except.error (e, fs) => ⟨fs, some e⟩
  | Except.ok fs =>
    match main_iter 1 (reportFileName cbid "freq_baseline" pre) gen1 fs with
    | Except.error (e, fs) => ⟨fs, some e⟩
    | Except.ok fs =>
      let fs := ((fs.writeCwd "metadata.json").moveToFinal "metadata.json")
      let fs := ((fs.writeCwd "index.html").moveToFinal "index.html")
      ⟨fs, none⟩

/-!  The concrete report generation, including the figure calls that raise. -/

/-- `PlotFreqTimeStats.make_plots` in full (lines 82-97): per flag, the
selection and statistics as in `ft_make_plots`, then the
`freq_time_fig` call of line 95, which raises TypeError inside
`fig = self.format_fig(title, pol)` (line 57). -/
def ft_make_plots_full (pol : String) (d : DataSet) :
    Except PyError (List (String × RfiImage) × DataSet) :=
  flag_names.foldlM
    (fun acc f => do
      let d' := if f ≠ "combined_flags"
        then acc.2.select ⟨some "track", some "cross", some f, some pol⟩
        else acc.2.select ⟨some "track", some "cross", none, some pol⟩
      let img := meanAxis2 d'.flags
      let _ ← freq_time_fig_call
      return (acc.1 ++ [(f, img)], d'))
    ([], d)

/-- `collect_plots` (lines 99-107) over the full `make_plots`. -/
def ft_collect_plots_full (d : DataSet) :
    Except PyError (List (String × List (String × RfiImage)) × DataSet) :=
  pol_names.foldlM
    (fun acc p => do
      let r ← ft_make_plots_full p acc.2
      return (acc.1 ++ [(p, r.1)], r.2))
    ([], d)

/-- `PlotFreqBaseline.make_plots` in full (lines 212-229): statistics as in
`fb_make_plots`, then the `freq_time_fig` call of line 227, whose
`fig = self.format_fig(title, pol)` (line 233) passes two arguments to the
three-parameter `format_fig` of line 245. -/
def fb_make_plots_full (tbl : BlTable) (pol : String) (d : DataSet) :
    Except PyError (List (String × RfiImage) × DataSet) :=
  flag_names.foldlM
    (fun acc f => do
      let d' := if f ≠ "combined_flags"
        then acc.2.select ⟨some "track", some "cross", some f, some pol⟩
        else acc.2.select ⟨some "track", some "cross", none, some pol⟩
      let two_d := meanAxis0 d'.flags
      let pr ← get_bl_idx tbl d'
      let _ ← freq_time_fig_call
      return (acc.1 ++ [(f, reorderCols two_d pr.1)], d'))
    ([], d)

/-- `collect_plots` over the full `PlotFreqBaseline.make_plots`. -/
def fb_collect_plots_full (tbl : BlTable) (d : DataSet) :
    Except PyError (List (String × List (String × RfiImage)) × DataSet) :=
  pol_names.foldlM
    (fun acc p => do
      let r ← fb_make_plots_full tbl p acc.2
      return (acc.1 ++ [(p, r.1)], r.2))
    ([], d)

/-- The freq_time iteration body of `main` (script lines 50-58):
`PlotFreqTimeStats(dataset)`, `collect_plots`, `RfiReportLayout(plots)` (no
`cbid` keyword is passed), `layout.create_layout(filename)` (one argument
against none accepted). -/
def gen_freq_time (d : DataSet) : Except PyError Unit := do
  let _plots ← ft_collect_plots_full d
  let _cbid ← rfiReportLayout_init []
  create_layout_call

/-- The freq_baseline iteration body of `main` (script lines 52-58):
`PlotFreqBaseline(dataset, path_bl_csv=...)` (whose `__init__`, lines
159-165, calls `get_bl_idx`), then `collect_plots`, layout and
`create_layout` as above. -/
def gen_freq_baseline (tbl : BlTable) (d : DataSet) : Except PyError Unit := do
  let _ ← get_bl_idx tbl d
  let _plots ← fb_collect_plots_full tbl d
  let _cbid ← rfiReportLayout_init []
  create_layout_call

/-- The whole program run for one invocation: `import katrfireport.
mkat_rfi_report` (script line 10), which raises IndentationError, then --
were the import to succeed -- the orchestration over the concrete
generation bodies (the dataset handle starts with the default selection of
`katdal.open`). -/
def mainRun (tbl : BlTable) (b : BaseData) (dsname pre : String) : RunResult :=
  match module_import with
  | Except.error e => ⟨FS.start, some e⟩
  | Except.ok _ =>
    orchCore (cbidOf dsname) pre
      (gen_freq_time ⟨b, {}⟩)
      (gen_freq_baseline tbl ⟨b, {}⟩)

/-!  Concrete data for claim C3 (a dataset whose only correlation product has
no column in the baseline-length table). -/

/-- A dataset whose single correlation product is ("m000h", "m001h"), so the
antenna-pair key is "m000m001". -/
def c3_base : BaseData :=
  ⟨fun _ => [[[0]]], fun _ => [("m000h", "m001h")], fun _ => ["target0"]⟩

/-- An empty baseline-length table: the key "m000m001" is absent. -/
def c3_tbl : BlTable := []

/-- A dataset with three correlation products, all present in `c5_tbl`. -/
def c5_base : BaseData :=
  ⟨fun _ => [[[0]]],
   fun _ => [("m000h", "m001h"), ("m000h", "m002h"), ("m001h", "m002h")],
   fun _ => ["target0"]⟩

/-- A baseline-length table covering all products of `c5_base`. -/
def c5_tbl : BlTable :=
  [("m000m001", 10), ("m000m002", 5), ("m001m002", 7)]

/-- A dataset with a single correlation product, present in `c4_tbl`. -/
def c4_base : BaseData :=
  ⟨fun _ => [[[1], [0]]], fun _ => [("m000h", "m001h")], fun _ => ["target0"]⟩

/-- A baseline-length table covering the product of `c4_base`. -/
def c4_tbl : BlTable := [("m000m001", 3)]

/-!  Theorems for the claims. -/

/-- C1 (counterexample): the claim says that after an injected failure
occurring after the HTML file of the first report is written but before the second
report completes, no directory with the final (non-temporary) output name
exists.  In the code the temporary directory is renamed to its final name at
the end of the FIRST loop iteration (script line 60), so injecting a failure
into the second report generation leaves the final-named directory in place,
containing the HTML file of the first report. -/
theorem c1_counterexample :
    (orchCore "cb" "pre" (Except.ok ())
        (Except.error (PyError.injected "boom"))).fs.final ≠ none
    ∧ (orchCore "cb" "pre" (Except.ok ())
        (Except.error (PyError.injected "boom"))).err
        = some (PyError.injected "boom") := by
  decide

/-- C1 (amended): on any failure of the FIRST report generation the temporary
directory is removed, the original exception is re-raised and no final-named
directory exists; on any failure of the SECOND report generation the original
exception is re-raised and the temporary directory is gone (it was renamed at
the end of the first iteration), but the final-named directory remains,
containing exactly the HTML file of the first report; when both generations
succeed, the final-named directory holds all four artifacts (both report
HTML files, metadata.json and index.html) and the temporary directory is
gone. -/
theorem c1_all_or_nothing_amended (cbid pre : String) (e : PyError) :
    (∀ g1, orchCore cbid pre (Except.error e) g1
      = ⟨⟨none, none, []⟩, some e⟩)
    ∧ orchCore cbid pre (Except.ok ()) (Except.error e)
      = ⟨⟨none, some [reportFileName cbid "freq_time" pre], []⟩, some e⟩
    ∧ orchCore cbid pre (Except.ok ()) (Except.ok ())
      = ⟨⟨none, some [reportFileName cbid "freq_time" pre,
                      reportFileName cbid "freq_baseline" pre,
                      "metadata.json", "index.html"], []⟩, none⟩ := by
  refine ⟨fun g1 => ?_, ?_, ?_⟩ <;>
    simp [orchCore, main_iter, FS.start, FS.mkdirTmp, FS.rmtreeTmp,
      FS.renameTmpToFinal, FS.writeCwd, FS.moveToFinal]

/-- C2: every invocation of the pipeline raises before any report HTML file
is produced: the module import itself raises IndentationError (the
`format_fig` of PlotFreqBaseline, line 245, is indented to a level matching
no enclosing block, and its body has no return statement), so `mainRun`
always stops with an error on an untouched file system; moreover, were
the module to load, the first `freq_time_fig` call would raise TypeError
inside `self.format_fig(title, pol)` (2 arguments, 3 required), so the
report generation bodies always raise as well, and `RfiReportLayout`
construction without a `cbid` keyword and the one-argument
`create_layout(filename)` call raise KeyError and TypeError respectively. -/
theorem c2_pipeline_always_raises :
    (∀ (tbl : BlTable) (b : BaseData) (dsname pre : String),
      mainRun tbl b dsname pre
        = ⟨FS.start, some (PyError.indentationError
            "unindent does not match any outer indentation level (line 245)")⟩)
    ∧ module_import = Except.error (PyError.indentationError
        "unindent does not match any outer indentation level (line 245)")
    ∧ fb_format_fig_result = none
    ∧ freq_time_fig_call = Except.error (PyError.typeError
        "format_fig() missing 1 required positional argument: dataset")
    ∧ (∀ d : DataSet, gen_freq_time d = Except.error (PyError.typeError
        "format_fig() missing 1 required positional argument: dataset"))
    ∧ rfiReportLayout_init [] = Except.error (PyError.keyError "cbid")
    ∧ create_layout_call = Except.error (PyError.typeError
        "create_layout() takes 1 positional argument but 2 were given") := by
  refine ⟨fun tbl b dsname pre => rfl, rfl, rfl, rfl, fun d => rfl, rfl, rfl⟩

/-- C3: on a dataset with a correlation product whose antenna-pair key
("m000m001") is absent from the baseline-length table, `get_bl_idx` itself
propagates the lookup KeyError with no fallback value; but the run as a whole
fails with the import-time IndentationError before the lookup is ever
reached (and before any output file is written: the resulting file system is
the untouched start state). -/
theorem c3_missing_baseline_key_eval :
    get_bl_idx c3_tbl ⟨c3_base, {}⟩
      = Except.error (PyError.keyError "m000m001")
    ∧ mainRun c3_tbl c3_base "1234567890_sdp_l0" "rfi"
      = ⟨FS.start, some (PyError.indentationError
          "unindent does not match any outer indentation level (line 245)")⟩
    ∧ FS.start.tmp = none ∧ FS.start.final = none ∧ FS.start.cwd = [] := by
  refine ⟨rfl, rfl, rfl, rfl, rfl⟩

/-- C6: `create_main_html` produces exactly the fixed header, then the
"Frequency-Time RFI Statistics" heading followed verbatim by the full
contents of the first report file, then the "Frequency-Baseline RFI
Statistics" heading followed verbatim by the full contents of the second
report file, then the fixed footer; in particular both report contents occur
verbatim, in that order. -/
theorem c6_index_html_concatenation (readFile : String → String)
    (dir f0 f1 : String) :
    create_main_html readFile [f0, f1] dir
      = (main_html_header
        ++ (("<h2>Frequency-Time RFI Statistics</h2>"
              ++ readFile (dir ++ "/" ++ f0))
          ++ ("<h2>Frequency-Baseline RFI Statistics</h2>"
              ++ readFile (dir ++ "/" ++ f1))))
        ++ main_html_footer
    ∧ (∃ pre post, create_main_html readFile [f0, f1] dir
        = pre ++ readFile (dir ++ "/" ++ f0) ++ post)
    ∧ (∃ pre mid post, create_main_html readFile [f0, f1] dir
        = pre ++ readFile (dir ++ "/" ++ f0) ++ mid
            ++ readFile (dir ++ "/" ++ f1) ++ post) := by
  have h : create_main_html readFile [f0, f1] dir
      = (main_html_header
        ++ (("<h2>Frequency-Time RFI Statistics</h2>"
              ++ readFile (dir ++ "/" ++ f0))
          ++ ("<h2>Frequency-Baseline RFI Statistics</h2>"
              ++ readFile (dir ++ "/" ++ f1))))
        ++ main_html_footer := rfl
  refine ⟨h, ?_, ?_⟩
  · exact ⟨main_html_header ++ "<h2>Frequency-Time RFI Statistics</h2>",
      "<h2>Frequency-Baseline RFI Statistics</h2>"
        ++ readFile (dir ++ "/" ++ f1) ++ main_html_footer,
      by rw [h]; simp [String.append_assoc]⟩
  · exact ⟨main_html_header ++ "<h2>Frequency-Time RFI Statistics</h2>",
      "<h2>Frequency-Baseline RFI Statistics</h2>",
      main_html_footer,
      by rw [h]; simp [String.append_assoc]⟩

/-- C7: the metadata record is a JSON object whose four dataset-derived
fields equal the corresponding observation parameters of the dataset, and
whose two ProductType fields are the fixed constants, for every dataset. -/
theorem c7_metadata_fields (p : ObsParams) :
    ∃ fs, write_metadata p = Json.obj fs
      ∧ fs.lookup "Description" = some (Json.str p.description)
      ∧ fs.lookup "ScheduleBlockIdCode" = some (Json.str p.sb_id_code)
      ∧ fs.lookup "ProposalId" = some (Json.str p.proposal_id)
      ∧ fs.lookup "CaptureBlockId" = some (Json.str p.capture_block_id)
      ∧ fs.lookup "ProductType" = some (Json.obj
          [("ProductTypeName", Json.str "MeerKATReductionProduct"),
           ("ReductionName", Json.str "RFIReport")]) := by
  refine ⟨_, rfl, ?_, ?_, ?_, ?_, ?_⟩ <;> rfl

/-- C8: on a successful run (both report generations succeeding in the
orchestration model), every artifact ends up in the output directory
`<output_dir>/<prefix>_<random-id>` (the temporary directory carries the
extra ".writing" suffix), and the files moved there are
`<cbid>_freq_time_<prefix>_report.html`,
`<cbid>_freq_baseline_<prefix>_report.html`, `metadata.json` and
`index.html`, where cbid is the dataset name up to its first underscore. -/
theorem c8_output_naming (parent pre uid dsname : String) :
    main_output_dir parent pre uid = parent ++ "/" ++ pre ++ "_" ++ uid
    ∧ main_tmp_dir parent pre uid
        = parent ++ "/" ++ pre ++ "_" ++ uid ++ ".writing"
    ∧ cbidOf dsname = (dsname.splitOn "_").headD ""
    ∧ reportFileName (cbidOf dsname) "freq_time" pre
        = cbidOf dsname ++ "_freq_time_" ++ pre ++ "_report.html"
    ∧ reportFileName (cbidOf dsname) "freq_baseline" pre
        = cbidOf dsname ++ "_freq_baseline_" ++ pre ++ "_report.html"
    ∧ orchCore (cbidOf dsname) pre (Except.ok ()) (Except.ok ())
        = ⟨⟨none, some [cbidOf dsname ++ "_freq_time_" ++ pre ++ "_report.html",
                        cbidOf dsname ++ "_freq_baseline_" ++ pre ++ "_report.html",
                        "metadata.json", "index.html"], []⟩, none⟩ := by
  refine ⟨?_, ?_, rfl, ?_, ?_, ?_⟩
  · simp [main_output_dir, joinPath, String.append_assoc]
  · simp [main_tmp_dir, main_output_dir, joinPath, String.append_assoc]
  · simp [reportFileName, String.append_assoc]
  · simp [reportFileName, String.append_assoc]
  · simp [orchCore, main_iter, FS.start, FS.mkdirTmp, FS.rmtreeTmp,
      FS.renameTmpToFinal, FS.writeCwd, FS.moveToFinal,
      reportFileName, String.append_assoc]

/-- C9: the statistics images are a function of the underlying dataset
contents and the (flag, polarization) pair only: both collectors give the
same results whatever selection was previously applied to the shared dataset
handle (each iteration reapplies its full selection before reading the flag
cube), and in particular running the frequency-time collector first does not
change the frequency-baseline results. -/
theorem c9_selection_order_independence (b : BaseData) (c c' : SelectArgs)
    (tbl : BlTable) :
    ft_collect_plots ⟨b, c⟩ = ft_collect_plots ⟨b, c'⟩
    ∧ fb_collect_plots tbl ⟨b, c⟩ = fb_collect_plots tbl ⟨b, c'⟩
    ∧ fb_collect_plots tbl (ft_collect_plots ⟨b, c⟩).2
        = fb_collect_plots tbl ⟨b, c'⟩ := by
  refine ⟨rfl, rfl, rfl⟩

/-!  Helper lemmas about the baseline-length lookup and argsort. -/

/-- The per-product lookup loop of `get_bl_idx` succeeds when every key has a
column, and then returns exactly the looked-up lengths. -/
theorem mapM_lookup_ok (tbl : BlTable) (l : List String)
    (h : ∀ c ∈ l, (tbl.lookup c).isSome = true) :
    l.mapM (fun c =>
        match tbl.lookup c with
        | some v => Except.ok v
        | none => Except.error (PyError.keyError c))
      = Except.ok (l.map (fun c => (tbl.lookup c).getD 0)) := by
  induction l with
  | nil => rfl
  | cons a t ih =>
    obtain ⟨v, hv⟩ := Option.isSome_iff_exists.mp (h a (List.mem_cons_self a t))
    rw [List.mapM_cons, List.map_cons, hv,
      ih (fun c hc => h c (List.mem_cons_of_mem a hc))]
    rfl

/-- Closed form of `get_bl_idx` when every antenna-pair key is present. -/
theorem get_bl_idx_ok (tbl : BlTable) (b : BaseData) (s : SelectArgs)
    (h : ∀ c ∈ get_corrprods ⟨b, s⟩, (tbl.lookup c).isSome = true) :
    get_bl_idx tbl ⟨b, s⟩
      = Except.ok
          (argsort ((get_corrprods ⟨b, s⟩).map (fun c => (tbl.lookup c).getD 0)),
           (argsort ((get_corrprods ⟨b, s⟩).map (fun c => (tbl.lookup c).getD 0))).map
             (fun i =>
               ((get_corrprods ⟨b, s⟩).map (fun c => (tbl.lookup c).getD 0)).getD i 0)) := by
  unfold get_bl_idx
  simp only [mapM_lookup_ok tbl _ h]
  rfl

/-- The argsort indices are a permutation of the index range. -/
theorem argsort_perm (l : List ℚ) : (argsort l).Perm (List.range l.length) :=
  List.mergeSort_perm (List.range l.length) _

/-- Applying the argsort indices to the values yields a non-decreasing
sequence. -/
theorem argsort_pairwise (l : List ℚ) :
    ((argsort l).map (fun i => l.getD i 0)).Pairwise (· ≤ ·) := by
  have hs := @List.sorted_mergeSort Nat
    (fun i j => decide (l.getD i 0 ≤ l.getD j 0))
    (fun a b c hab hbc => by
      simp only [decide_eq_true_eq] at *
      exact le_trans hab hbc)
    (fun a b => by simpa using le_total (l.getD a 0) (l.getD b 0))
    (List.range l.length)
  rw [List.pairwise_map]
  exact hs.imp (fun hab => by simpa using hab)

/-- C5: when every correlation product has an entry in the baseline-length
table, `get_bl_idx` succeeds; the returned index array is a permutation of
the original baseline index set (the range of baseline indices), and the
reordered length sequence it returns is non-decreasing. -/
theorem c5_baseline_permutation (tbl : BlTable) (d : DataSet)
    (h : ∀ c ∈ get_corrprods d, (tbl.lookup c).isSome = true) :
    ∃ bl_idx ordered_bl,
      get_bl_idx tbl d = Except.ok (bl_idx, ordered_bl)
      ∧ bl_idx.Perm (List.range (get_corrprods d).length)
      ∧ ordered_bl.Pairwise (· ≤ ·) := by
  refine ⟨_, _, get_bl_idx_ok tbl d.base d.current h, ?_, argsort_pairwise _⟩
  have hp := argsort_perm ((get_corrprods d).map (fun c => (tbl.lookup c).getD 0))
  simpa using hp

/-- Witness for C5 at a concrete dataset and table. -/
theorem c5_baseline_permutation_witness :
    (∀ c ∈ get_corrprods ⟨c5_base, {}⟩, ((c5_tbl.lookup c).isSome = true))
    ∧ ∃ bl_idx ordered_bl,
        get_bl_idx c5_tbl ⟨c5_base, {}⟩ = Except.ok (bl_idx, ordered_bl)
        ∧ bl_idx.Perm (List.range (get_corrprods ⟨c5_base, {}⟩).length)
        ∧ ordered_bl.Pairwise (· ≤ ·) :=
  ⟨by decide, c5_baseline_permutation c5_tbl ⟨c5_base, {}⟩ (by decide)⟩

/-- C4: the frequency-time collector yields, for each polarization HH, VV and
each of the five flag categories, the mean over the baseline axis (axis 2) of
the flag cube selected with scans="track", corrprods="cross", the given
polarization and the given flag name (no flag filter for "combined_flags"),
ten images in all; the frequency-baseline collector yields, under the same
selections, the mean over the time axis (axis 0) with the baseline columns
subsequently reordered by the argsort of the physical baseline lengths,
again ten images. -/
theorem c4_statistics_collection :
    (∀ d : DataSet,
      (ft_collect_plots d).1 =
        [("HH",
          [("data_lost", meanAxis2 (d.base.view
              ⟨some "track", some "cross", some "data_lost", some "HH"⟩)),
           ("cam", meanAxis2 (d.base.view
              ⟨some "track", some "cross", some "cam", some "HH"⟩)),
           ("ingest_rfi", meanAxis2 (d.base.view
              ⟨some "track", some "cross", some "ingest_rfi", some "HH"⟩)),
           ("cal_rfi", meanAxis2 (d.base.view
              ⟨some "track", some "cross", some "cal_rfi", some "HH"⟩)),
           ("combined_flags", meanAxis2 (d.base.view
              ⟨some "track", some "cross", none, some "HH"⟩))]),
         ("VV",
          [("data_lost", meanAxis2 (d.base.view
              ⟨some "track", some "cross", some "data_lost", some "VV"⟩)),
           ("cam", meanAxis2 (d.base.view
              ⟨some "track", some "cross", some "cam", some "VV"⟩)),
           ("ingest_rfi", meanAxis2 (d.base.view
              ⟨some "track", some "cross", some "ingest_rfi", some "VV"⟩)),
           ("cal_rfi", meanAxis2 (d.base.view
              ⟨some "track", some "cross", some "cal_rfi", some "VV"⟩)),
           ("combined_flags", meanAxis2 (d.base.view
              ⟨some "track", some "cross", none, some "VV"⟩))])]
      ∧ ((ft_collect_plots d).1.map (fun pr => pr.2.length)).sum = 10)
    ∧ ∀ (tbl : BlTable) (d : DataSet),
        (∀ s : SelectArgs, ∀ c ∈ get_corrprods ⟨d.base, s⟩,
          (tbl.lookup c).isSome = true) →
        fb_collect_plots tbl d = Except.ok
          ([("HH",
             [("data_lost", reorderCols
                (meanAxis0 (d.base.view
                  ⟨some "track", some "cross", some "data_lost", some "HH"⟩))
                (argsort ((get_corrprods
                  ⟨d.base, ⟨some "track", some "cross", some "data_lost", some "HH"⟩⟩).map
                    (fun c => (tbl.lookup c).getD 0)))),
              ("cam", reorderCols
                (meanAxis0 (d.base.view
                  ⟨some "track", some "cross", some "cam", some "HH"⟩))
                (argsort ((get_corrprods
                  ⟨d.base, ⟨some "track", some "cross", some "cam", some "HH"⟩⟩).map
                    (fun c => (tbl.lookup c).getD 0)))),
              ("ingest_rfi", reorderCols
                (meanAxis0 (d.base.view
                  ⟨some "track", some "cross", some "ingest_rfi", some "HH"⟩))
                (argsort ((get_corrprods
                  ⟨d.base, ⟨some "track", some "cross", some "ingest_rfi", some "HH"⟩⟩).map
                    (fun c => (tbl.lookup c).getD 0)))),
              ("cal_rfi", reorderCols
                (meanAxis0 (d.base.view
                  ⟨some "track", some "cross", some "cal_rfi", some "HH"⟩))
                (argsort ((get_corrprods
                  ⟨d.base, ⟨some "track", some "cross", some "cal_rfi", some "HH"⟩⟩).map
                    (fun c => (tbl.lookup c).getD 0)))),
              ("combined_flags", reorderCols
                (meanAxis0 (d.base.view
                  ⟨some "track", some "cross", none, some "HH"⟩))
                (argsort ((get_corrprods
                  ⟨d.base, ⟨some "track", some "cross", none, some "HH"⟩⟩).map
                    (fun c => (tbl.lookup c).getD 0))))]),
            ("VV",
             [("data_lost", reorderCols
                (meanAxis0 (d.base.view
                  ⟨some "track", some "cross", some "data_lost", some "VV"⟩))
                (argsort ((get_corrprods
                  ⟨d.base, ⟨some "track", some "cross", some "data_lost", some "VV"⟩⟩).map
                    (fun c => (tbl.lookup c).getD 0)))),
              ("cam", reorderCols
                (meanAxis0 (d.base.view
                  ⟨some "track", some "cross", some "cam", some "VV"⟩))
                (argsort ((get_corrprods
                  ⟨d.base, ⟨some "track", some "cross", some "cam", some "VV"⟩⟩).map
                    (fun c => (tbl.lookup c).getD 0)))),
              ("ingest_rfi", reorderCols
                (meanAxis0 (d.base.view
                  ⟨some "track", some "cross", some "ingest_rfi", some "VV"⟩))
                (argsort ((get_corrprods
                  ⟨d.base, ⟨some "track", some "cross", some "ingest_rfi", some "VV"⟩⟩).map
                    (fun c => (tbl.lookup c).getD 0)))),
              ("cal_rfi", reorderCols
                (meanAxis0 (d.base.view
                  ⟨some "track", some "cross", some "cal_rfi", some "VV"⟩))
                (argsort ((get_corrprods
                  ⟨d.base, ⟨some "track", some "cross", some "cal_rfi", some "VV"⟩⟩).map
                    (fun c => (tbl.lookup c).getD 0)))),
              ("combined_flags", reorderCols
                (meanAxis0 (d.base.view
                  ⟨some "track", some "cross", none, some "VV"⟩))
                (argsort ((get_corrprods
                  ⟨d.base, ⟨some "track", some "cross", none, some "VV"⟩⟩).map
                    (fun c => (tbl.lookup c).getD 0))))])],
           ⟨d.base, ⟨some "track", some "cross", none, some "VV"⟩⟩)
        ∧ (fb_collect_plots tbl d).map
            (fun r => (r.1.map (fun pr => pr.2.length)).sum) = Except.ok 10 := by
  refine ⟨fun d => ⟨rfl, rfl⟩, fun tbl d h => ?_⟩
  have e : ∀ s : SelectArgs, get_bl_idx tbl ⟨d.base, s⟩
      = Except.ok
          (argsort ((get_corrprods ⟨d.base, s⟩).map (fun c => (tbl.lookup c).getD 0)),
           (argsort ((get_corrprods ⟨d.base, s⟩).map (fun c => (tbl.lookup c).getD 0))).map
             (fun i =>
               ((get_corrprods ⟨d.base, s⟩).map (fun c => (tbl.lookup c).getD 0)).getD i 0)) :=
    fun s => get_bl_idx_ok tbl d.base s (h s)
  have heq : fb_collect_plots tbl d = fb_collect_plots tbl ⟨d.base, d.current⟩ := rfl
  rw [heq]
  simp only [fb_collect_plots, fb_make_plots, pol_names, flag_names,
    List.foldlM_cons, List.foldlM_nil, DataSet.select, DataSet.flags]
  norm_num +decide
  simp only [e]
  exact ⟨rfl, rfl⟩

/-- Every antenna-pair key of `c4_base` has a column in `c4_tbl`, under any
selection. -/
theorem c4_lookup_total :
    ∀ s : SelectArgs, ∀ c ∈ get_corrprods ⟨c4_base, s⟩,
      ((c4_tbl.lookup c).isSome = true) := by
  intro s c hc
  simp only [get_corrprods, DataSet.corrProducts, c4_base, List.map_cons,
    List.map_nil, List.mem_singleton] at hc
  subst hc
  rfl

/-- Witness for C4: the lookup hypothesis holds at the concrete dataset and
table, and the frequency-baseline collector indeed yields ten images there. -/
theorem c4_statistics_collection_witness :
    (∀ s : SelectArgs, ∀ c ∈ get_corrprods ⟨c4_base, s⟩,
      ((c4_tbl.lookup c).isSome = true))
    ∧ (fb_collect_plots c4_tbl ⟨c4_base, {}⟩).map
        (fun r => (r.1.map (fun pr => pr.2.length)).sum) = Except.ok 10 :=
  ⟨c4_lookup_total,
   (c4_statistics_collection.2 c4_tbl ⟨c4_base, {}⟩ c4_lookup_total).2⟩

/-- The per-index loop of `make_ticks_core` succeeds when every index yields
a value. -/
theorem mapM_option_eq_map {α β : Type} (l : List α) (f : α → Option β)
    (g : α → β) (h : ∀ a ∈ l, f a = some (g a)) :
    l.mapM f = some (l.map g) := by
  induction l with
  | nil => rfl
  | cons a t ih =>
    rw [List.mapM_cons, h a (List.mem_cons_self a t), List.map_cons,
      ih (fun x hx => h x (List.mem_cons_of_mem a hx))]
    rfl

/-- C10: whenever the tick computation completes (enough slice positions for
all targets, at least one target), the y-axis tick dictionary maps, for each
scan index i, the position i*step + 10 (with step the floor division of the
number of selected time samples by the number of scan targets, plus 1) to the
i-th scan-target name, one tick per target; the tick positions are strictly
increasing, so the dictionary has exactly one entry per target. -/
theorem c10_tick_placement (targets : List String) (nscans : Nat)
    (h0 : targets.length ≠ 0)
    (h1 : (targets.length - 1) * (nscans / targets.length + 1) < nscans) :
    make_ticks_core targets nscans
      = some ((List.range targets.length).map
          (fun i => (i * (nscans / targets.length + 1) + 10, targets.getD i "")))
    ∧ ((List.range targets.length).map
        (fun i => i * (nscans / targets.length + 1) + 10)).Pairwise (· < ·) := by
  constructor
  · unfold make_ticks_core
    rw [if_neg h0]
    apply mapM_option_eq_map
    intro i hi
    have hiT : i < targets.length := List.mem_range.mp hi
    have hstep : 0 < nscans / targets.length + 1 := Nat.succ_pos _
    have histep : i * (nscans / targets.length + 1) < nscans := by
      refine lt_of_le_of_lt (Nat.mul_le_mul_right _ ?_) h1
      omega
    have hm : i < (nscans + (nscans / targets.length + 1) - 1)
        / (nscans / targets.length + 1) := by
      rw [Nat.lt_iff_add_one_le, Nat.le_div_iff_mul_le hstep]
      have hd : (i + 1) * (nscans / targets.length + 1)
          = i * (nscans / targets.length + 1) + (nscans / targets.length + 1) := by
        ring
      omega
    have hidx : ((List.range ((nscans + (nscans / targets.length + 1) - 1)
          / (nscans / targets.length + 1))).map
            (fun j => j * (nscans / targets.length + 1) + 10))[i]?
        = some (i * (nscans / targets.length + 1) + 10) := by
      rw [List.getElem?_map, List.getElem?_range hm]
      rfl
    have htar : targets[i]? = some (targets.getD i "") := by
      cases h : targets[i]? with
      | none =>
        exact absurd (List.getElem?_eq_none_iff.mp h) (by omega)
      | some x =>
        rw [List.getD_eq_getElem?_getD, h]
        rfl
    rw [hidx, htar]
    rfl
  · refine List.Pairwise.map _ (fun a b hab => ?_) (List.pairwise_lt_range _)
    have := (Nat.mul_lt_mul_right (a := nscans / targets.length + 1)
      (Nat.succ_pos _)).mpr hab
    omega

/-- Witness for C10 at three targets and ten time samples: step is
10/3 + 1 = 4, the ticks are 10, 14 and 18. -/
theorem c10_tick_placement_witness :
    ((["t1", "t2", "t3"] : List String).length ≠ 0
      ∧ (([ "t1", "t2", "t3"] : List String).length - 1)
          * (10 / (["t1", "t2", "t3"] : List String).length + 1) < 10)
    ∧ make_ticks_core ["t1", "t2", "t3"] 10
        = some [(10, "t1"), (14, "t2"), (18, "t3")] :=
  ⟨⟨by decide, by decide⟩,
   (c10_tick_placement ["t1", "t2", "t3"] 10 (by decide) (by decide)).1.trans
     (by decide)⟩
